import Mathlib

/-!
Verification development for the admission-control core of the
Filipino-community gatekeeping bot (src/main.py).

The Python source is shallowly embedded:
  * `RateLimiter` (src/main.py lines 32-68) including the exact dictionary
    semantics of `_cleanup`, which rebuilds a `defaultdict` as a plain
    `dict` (missing-key access on the rebuilt map raises `KeyError`,
    modelled as `none`);
  * `DatabaseManager` (lines 71-206) as a pure record of the four tables,
    with each SQL statement translated to an association-list operation;
  * `PhoneVerifier.verify_phone_number` (lines 210-243), with the external
    `phonenumbers` library modelled on the input domain the program uses;
  * `FilipinoBotManager` (lines 246-455): `generate_invite_links`,
    `block_user`, `handle_join_request` and `handle_contact_message` as
    pure state transformers emitting a list of transport actions.

Times are seconds as `Nat`; `datetime.now() - t < window` becomes
`now - t < window` on `Nat` (truncated subtraction, so a timestamp in the
future counts as age zero, matching a negative `timedelta` being below the
window).
-/

namespace FilipinoBot

abbrev UserId := Int
abbrev ChatId := Int
abbrev Time := Nat

/-- `timedelta(days=1)` in seconds. -/
def daySecs : Nat := 86400

/-- `timedelta(minutes=1)` in seconds. -/
def minuteSecs : Nat := 60

/-- First-match lookup in an association list (Python dict access that is
known to hit, and SQL `SELECT ... WHERE pk = ?`). -/
def assocLookup {α β : Type} [DecidableEq α] : List (α × β) → α → Option β
  | [], _ => none
  | (k, v) :: rest, x => if k = x then some v else assocLookup rest x

/-- Update-or-append in an association list (Python `{**d, k: v}` and SQL
`INSERT OR REPLACE`). -/
def assocSet {α β : Type} [DecidableEq α] : List (α × β) → α → β → List (α × β)
  | [], x, v => [(x, v)]
  | (k, w) :: rest, x, v =>
      if k = x then (k, v) :: rest else (k, w) :: assocSet rest x v

/-! ## RateLimiter (src/main.py lines 32-68) -/

/-- One of the three per-kind attempt dictionaries.  `isDefault` records
whether the attribute still holds the original `defaultdict(list)`: the
dict literal built inside `_cleanup` is a plain `dict`, so after the first
`_cleanup` on a kind, missing-key access raises `KeyError`. -/
structure AttemptMap where
  isDefault : Bool
  entries : List (UserId × List Time)
deriving DecidableEq

/-- Python subscript `d[u]` on an attempt dictionary: hit returns the list;
miss on a `defaultdict` inserts and returns `[]`; miss on a plain dict
raises `KeyError` (`none`). -/
def amGet (m : AttemptMap) (u : UserId) : Option (List Time × AttemptMap) :=
  match assocLookup m.entries u with
  | some l => some (l, m)
  | none =>
      if m.isDefault then some ([], ⟨true, assocSet m.entries u []⟩) else none

/-- `RateLimiter._cleanup`: reads `d[user_id]` (possibly raising), then
replaces the attribute by the plain dict `{**d, user_id: pruned}`. -/
def cleanup (m : AttemptMap) (u : UserId) (now window : Time) :
    Option AttemptMap :=
  match amGet m u with
  | none => none
  | some (attempts, m1) =>
      some ⟨false, assocSet m1.entries u
        (attempts.filter (fun t => now - t < window))⟩

structure RateLimiter where
  verification_attempts : AttemptMap
  join_attempts : AttemptMap
  spam_messages : AttemptMap
deriving DecidableEq

/-- `RateLimiter.__init__`: three fresh `defaultdict(list)`. -/
def RateLimiter.init : RateLimiter := ⟨⟨true, []⟩, ⟨true, []⟩, ⟨true, []⟩⟩

def verification_limit : Nat := 3
def join_limit : Nat := 5
def message_limit : Nat := 20

/-- `RateLimiter.can_verify`: `_cleanup` then
`len(self.verification_attempts[user_id]) < self.verification_limit`. -/
def RateLimiter.can_verify (rl : RateLimiter) (u : UserId) (now : Time) :
    Option (Bool × RateLimiter) :=
  match cleanup rl.verification_attempts u now daySecs with
  | none => none
  | some m1 =>
      match amGet m1 u with
      | none => none
      | some (l, m2) =>
          some (decide (l.length < verification_limit),
                { rl with verification_attempts := m2 })

/-- `RateLimiter.record_verification`:
`self.verification_attempts[user_id].append(datetime.now())`. -/
def RateLimiter.record_verification (rl : RateLimiter) (u : UserId)
    (now : Time) : Option RateLimiter :=
  match amGet rl.verification_attempts u with
  | none => none
  | some (l, m1) =>
      some { rl with verification_attempts :=
              ⟨m1.isDefault, assocSet m1.entries u (l ++ [now])⟩ }

/-- `RateLimiter.can_join`. -/
def RateLimiter.can_join (rl : RateLimiter) (u : UserId) (now : Time) :
    Option (Bool × RateLimiter) :=
  match cleanup rl.join_attempts u now daySecs with
  | none => none
  | some m1 =>
      match amGet m1 u with
      | none => none
      | some (l, m2) =>
          some (decide (l.length < join_limit),
                { rl with join_attempts := m2 })

/-- `RateLimiter.record_join`. -/
def RateLimiter.record_join (rl : RateLimiter) (u : UserId) (now : Time) :
    Option RateLimiter :=
  match amGet rl.join_attempts u with
  | none => none
  | some (l, m1) =>
      some { rl with join_attempts :=
              ⟨m1.isDefault, assocSet m1.entries u (l ++ [now])⟩ }

/-- `RateLimiter.can_message`. -/
def RateLimiter.can_message (rl : RateLimiter) (u : UserId) (now : Time) :
    Option (Bool × RateLimiter) :=
  match cleanup rl.spam_messages u now minuteSecs with
  | none => none
  | some m1 =>
      match amGet m1 u with
      | none => none
      | some (l, m2) =>
          some (decide (l.length < message_limit),
                { rl with spam_messages := m2 })

/-- `RateLimiter.record_message`. -/
def RateLimiter.record_message (rl : RateLimiter) (u : UserId) (now : Time) :
    Option RateLimiter :=
  match amGet rl.spam_messages u with
  | none => none
  | some (l, m1) =>
      some { rl with spam_messages :=
              ⟨m1.isDefault, assocSet m1.entries u (l ++ [now])⟩ }

/-! ## DatabaseManager (src/main.py lines 71-206) -/

/-- One row of the `verified_users` table. -/
structure UserRecord where
  username : String
  first_name : String
  phone_number : Option String
  verified_date : Time
  is_banned : Bool
deriving DecidableEq

/-- One row of the `join_requests` table (keyed by (user_id, chat_id)). -/
structure JoinRequestRecord where
  request_date : Time
  status : String
deriving DecidableEq

/-- One row of the `managed_groups` table (keyed by chat_id). -/
structure GroupRecord where
  chat_title : String
  chat_type : String
  added_date : Time
  is_active : Bool
deriving DecidableEq

/-- One row of the append-only `spam_tracking` table. -/
structure SpamIncident where
  user_id : UserId
  incident_type : String
  incident_time : Time
  details : String
deriving DecidableEq

/-- The durable store: the four tables created by `init_database`
(`CREATE TABLE IF NOT EXISTS` preserves existing rows, so opening the
database is the identity on this state). -/
structure Db where
  verified_users : List (UserId × UserRecord)
  join_requests : List ((UserId × ChatId) × JoinRequestRecord)
  managed_groups : List (ChatId × GroupRecord)
  spam_tracking : List SpamIncident
deriving DecidableEq

/-- `DatabaseManager.add_verified_user`: `INSERT OR REPLACE` the whole row,
storing `username or ""` and writing the `is_banned` column as `FALSE`. -/
def Db.add_verified_user (db : Db) (u : UserId) (username : Option String)
    (first_name : String) (phone : String) (now : Time) : Db :=
  { db with verified_users :=
      (assocSet db.verified_users u
        ⟨username.getD "", first_name, some phone, now, false⟩) }

/-- `DatabaseManager.is_verified`:
`SELECT user_id FROM verified_users WHERE user_id = ? AND is_banned = FALSE`
is non-empty. -/
def Db.is_verified (db : Db) (u : UserId) : Bool :=
  match assocLookup db.verified_users u with
  | some r => !r.is_banned
  | none => false

/-- `DatabaseManager.get_user_phone`: the `phone_number` column of the
non-banned row, else `None`. -/
def Db.get_user_phone (db : Db) (u : UserId) : Option String :=
  match assocLookup db.verified_users u with
  | some r => if r.is_banned then none else r.phone_number
  | none => none

/-- `DatabaseManager.ban_user`:
`UPDATE verified_users SET is_banned = TRUE WHERE user_id = ?` — a no-op
when the user has no row. -/
def Db.ban_user (db : Db) (u : UserId) : Db :=
  { db with verified_users :=
      (db.verified_users.map
        (fun p => if p.1 = u then (p.1, { p.2 with is_banned := true }) else p)) }

/-- `DatabaseManager.add_join_request`: `INSERT OR REPLACE` with status
`'pending'`. -/
def Db.add_join_request (db : Db) (u : UserId) (c : ChatId) (now : Time) :
    Db :=
  { db with join_requests := assocSet db.join_requests (u, c) ⟨now, "pending"⟩ }

/-- `DatabaseManager.update_join_request_status`: `UPDATE` of the status
column — a no-op when the row is missing. -/
def Db.update_join_request_status (db : Db) (u : UserId) (c : ChatId)
    (st : String) : Db :=
  { db with join_requests :=
      (db.join_requests.map
        (fun p => if p.1 = (u, c) then (p.1, { p.2 with status := st }) else p)) }

/-- `DatabaseManager.add_managed_group`: `INSERT OR REPLACE` with
`is_active = TRUE`. -/
def Db.add_managed_group (db : Db) (c : ChatId) (title ty : String)
    (now : Time) : Db :=
  { db with managed_groups := assocSet db.managed_groups c ⟨title, ty, now, true⟩ }

/-- `DatabaseManager.get_managed_groups`:
`SELECT chat_id, chat_title, chat_type FROM managed_groups WHERE is_active = TRUE`. -/
def Db.get_managed_groups (db : Db) : List (ChatId × String × String) :=
  (db.managed_groups.filter (fun p => p.2.is_active)).map
    (fun p => (p.1, p.2.chat_title, p.2.chat_type))

/-- `DatabaseManager.log_spam_incident`: append one audit row. -/
def Db.log_spam_incident (db : Db) (u : UserId) (ty det : String)
    (now : Time) : Db :=
  { db with spam_tracking := db.spam_tracking ++ [⟨u, ty, now, det⟩] }

/-! ## PhoneVerifier (src/main.py lines 209-243)

String primitives are given character-list implementations (extensionally
the ordinary library operations, all inputs here being ASCII) so that every
definition evaluates by kernel reduction. -/

/-- `s.startswith(p)`. -/
def strStarts (s p : String) : Bool := p.data.isPrefixOf s.data

/-- `s[n:]`. -/
def strDrop (s : String) (n : Nat) : String := ⟨s.data.drop n⟩

/-- `s[:n]`. -/
def strTake (s : String) (n : Nat) : String := ⟨s.data.take n⟩

/-- `len(s)`. -/
def strLen (s : String) : Nat := s.data.length

/-- The `.replace` chain of `verify_phone_number`: every occurrence of the
single characters space, dash, `(`, `)` is removed. -/
def cleanPhone (s : String) : String :=
  ⟨s.data.filter (fun c => !(c = ' ' || c = '-' || c = '(' || c = ')'))⟩

/-- The `if`/`elif` normalization chain of `verify_phone_number`, applied
to the cleaned string. -/
def normalizePhone (c : String) : String :=
  if strStarts c "09" then "+63" ++ strDrop c 1
  else if strStarts c "9" && strLen c == 10 then "+63" ++ c
  else if strStarts c "63" && !strStarts c "+63" then "+" ++ c
  else if !strStarts c "+" && strLen c == 11 && strStarts c "0" then
    "+63" ++ strDrop c 1
  else if !strStarts c "+" && strLen c == 10 then "+63" ++ c
  else c

/-- Model of a `phonenumbers.PhoneNumber`: calling code plus the national
digits. -/
structure ParsedNumber where
  country_code : Nat
  national : String
deriving DecidableEq

/-- Model of the external `phonenumbers.parse` with no default region, on
the domain this program uses: it succeeds only on `+` followed by digits
whose leading digits form a modelled calling code (63 for the Philippines,
1 for North America); everything else raises `NumberParseException`
(`none`). -/
def pnParse (s : String) : Option ParsedNumber :=
  if strStarts s "+" then
    let ds := strDrop s 1
    if strLen ds > 0 && ds.data.all Char.isDigit then
      if strStarts ds "63" then some ⟨63, strDrop ds 2⟩
      else if strStarts ds "1" then some ⟨1, strDrop ds 1⟩
      else none
    else none
  else none

/-- Model of `phonenumbers.is_valid_number` restricted to the modelled
calling codes: a Philippine mobile number is ten digits led by 9. -/
def pnIsValid (p : ParsedNumber) : Bool :=
  if p.country_code = 63 then
    strLen p.national == 10 && strStarts p.national "9"
      && p.national.data.all Char.isDigit
  else if p.country_code = 1 then
    strLen p.national == 10 && p.national.data.all Char.isDigit
  else false

/-- Model of `phonenumbers.region_code_for_number` on the modelled calling
codes. -/
def pnRegion (p : ParsedNumber) : Option String :=
  if p.country_code = 63 then some "PH"
  else if p.country_code = 1 then some "US"
  else none

/-- Model of `phonenumbers.format_number(..., INTERNATIONAL)`: a valid
Philippine mobile number is grouped `+63 XXX XXX XXXX`. -/
def pnFormatInternational (p : ParsedNumber) : String :=
  if p.country_code = 63 && pnIsValid p then
    "+63 " ++ strTake p.national 3 ++ " " ++ strTake (strDrop p.national 3) 3
      ++ " " ++ strDrop p.national 6
  else
    "+" ++ Nat.repr p.country_code ++ " " ++ p.national

/-- The dictionary returned by `PhoneVerifier.verify_phone_number`. -/
structure PhoneResult where
  is_filipino : Bool
  formatted_number : String
  is_valid : Bool
  region : Option String
  country_code : Option Nat
deriving DecidableEq

/-- `PhoneVerifier.verify_phone_number`: clean, normalize, parse; on
`NumberParseException` return the fallback dictionary echoing the raw
input. -/
def verify_phone_number (phone : String) : PhoneResult :=
  let cleaned := normalizePhone (cleanPhone phone)
  match pnParse cleaned with
  | some p =>
      let region := pnRegion p
      let is_valid := pnIsValid p
      let is_ph := decide (region = some "PH") && decide (p.country_code = 63)
        && is_valid
      ⟨is_ph, pnFormatInternational p, is_valid, region,
        if is_valid then some p.country_code else none⟩
  | none => ⟨false, phone, false, none, none⟩

/-! ## FilipinoBotManager (src/main.py lines 246-455) -/

/-- The configuration the manager reads from the environment. -/
structure Config where
  adminId : UserId
deriving DecidableEq

/-- The fields of a Telegram user this core consults. -/
structure TgUser where
  id : UserId
  is_bot : Bool
  username : Option String
  first_name : String
deriving DecidableEq

/-- A `chat_join_request` update: requesting user and target chat. -/
structure JoinRequest where
  user : TgUser
  chatId : ChatId
deriving DecidableEq

/-- A shared-contact message: claimed owner id and phone string. -/
structure Contact where
  user_id : UserId
  phone_number : String
deriving DecidableEq

/-- Python string truthiness of `stored_phone` (`None` and `""` are
falsy). -/
def pyTruthy (o : Option String) : Bool :=
  match o with
  | none => false
  | some s => !s.data.isEmpty

/-- One per-destination outcome inside `generate_invite_links`: either the
success message embedding the fresh link, or the explicit
`Failed to create invite link` entry appended by the `except` branch. -/
inductive InviteEntry where
  | success (chatId : ChatId)
  | failure (chatId : ChatId)
deriving DecidableEq

/-- The value `generate_invite_links` returns: the no-managed-groups error
string, or the joined list with one entry per active group. -/
inductive InviteLinksResult where
  | noGroups
  | entries (es : List InviteEntry)
deriving DecidableEq

/-- `FilipinoBotManager.generate_invite_links`, with the transport's
per-chat `create_chat_invite_link` outcome abstracted as the oracle
`linkFails`. -/
def generate_invite_links (db : Db) (linkFails : ChatId → Bool) :
    InviteLinksResult :=
  let gs := db.get_managed_groups
  if gs.isEmpty then .noGroups
  else .entries (gs.map
    (fun g => if linkFails g.1 then .failure g.1 else .success g.1))

/-- Outbound transport calls the handlers perform (message text is a
presentation concern of the excluded transport collaborator; each
constructor marks which send site at which line fired). -/
inductive Action where
  | approve (chatId : ChatId) (u : UserId)
  | decline (chatId : ChatId) (u : UserId)
  | sendVerificationPrompt (u : UserId)
  | sendWelcome (u : UserId)
  | notifyAdminApproved (u : UserId)
  | notifyAdminBlocked (u : UserId)
  | replyBlocked (u : UserId)
  | replyMismatch (u : UserId)
  | replyTooMany (u : UserId)
  | replyVerified (u : UserId) (links : InviteLinksResult)
  | notifyAdminVerified (u : UserId)
  | replyInvalidPhone (u : UserId)
deriving DecidableEq

/-- The manager's process state: durable store plus the in-memory
`rate_limiter` and `blocked_users` set. -/
structure ManagerState where
  db : Db
  rate_limiter : RateLimiter
  blocked_users : List UserId
deriving DecidableEq

/-- `FilipinoBotManager.__init__` over an existing database file:
`DatabaseManager.init_database` only issues `CREATE TABLE IF NOT EXISTS`
(preserving rows), the rate limiter is fresh, and
`self.blocked_users = set()` — no read of the store. -/
def initManager (db : Db) : ManagerState :=
  ⟨db, RateLimiter.init, []⟩

/-- Python `set.add`: membership-preserving insert. -/
def setAdd (l : List UserId) (u : UserId) : List UserId :=
  if u ∈ l then l else l ++ [u]

/-- `FilipinoBotManager.block_user`: add to the in-memory set, run the
`UPDATE`-based ban, log the `block` incident, notify the administrator. -/
def block_user (s : ManagerState) (u : UserId) (reason : String)
    (now : Time) : ManagerState × List Action :=
  let s1 : ManagerState := { s with blocked_users := setAdd s.blocked_users u }
  let db1 := (s1.db.ban_user u).log_spam_incident u "block" reason now
  ({ s1 with db := db1 }, [.notifyAdminBlocked u])

/-- `FilipinoBotManager.handle_join_request`.  The whole body runs inside
`try/except`, so a `KeyError` out of the rate limiter (the `none` branches)
is swallowed: the update is dropped with no approve/decline.
`promptDeliverable` abstracts whether the `send_message` carrying the
verification prompt succeeds (its failure is the one send the code handles
specially, by declining). -/
def handle_join_request (cfg : Config) (s : ManagerState) (req : JoinRequest)
    (now : Time) (promptDeliverable : Bool) : ManagerState × List Action :=
  let u := req.user
  let c := req.chatId
  if u.is_bot || u.id = cfg.adminId then
    (s, [.approve c u.id])
  else if u.id ∈ s.blocked_users then
    ({ s with db := (s.db.log_spam_incident u.id "join_request_rejected"
        "Blocked user tried to join" now) },
     [.decline c u.id])
  else
    match s.rate_limiter.can_join u.id now with
    | none => (s, [])
    | some (ok, rl1) =>
      if !ok then
        (⟨(s.db.log_spam_incident u.id "join_request_rate_limit"
            "Too many join attempts" now), rl1, s.blocked_users⟩,
         [.decline c u.id])
      else
        match rl1.record_join u.id now with
        | none => ({ s with rate_limiter := rl1 }, [])
        | some rl2 =>
          let db1 := s.db.add_join_request u.id c now
          let stored_phone := db1.get_user_phone u.id
          if db1.is_verified u.id && pyTruthy stored_phone
              && (verify_phone_number (stored_phone.getD "")).is_filipino then
            (⟨db1.update_join_request_status u.id c "approved", rl2,
               s.blocked_users⟩,
             [.approve c u.id, .sendWelcome u.id, .notifyAdminApproved u.id])
          else
            if promptDeliverable then
              (⟨db1, rl2, s.blocked_users⟩, [.sendVerificationPrompt u.id])
            else
              (⟨db1.update_join_request_status u.id c "rejected", rl2,
                 s.blocked_users⟩,
               [.decline c u.id])

/-- `FilipinoBotManager.handle_contact_message`.  The handler is not
wrapped in `try/except`, so `KeyError` out of the rate limiter propagates
(`none`).  `linkFails` abstracts per-chat invite-link creation failure. -/
def handle_contact_message (s : ManagerState) (user : TgUser)
    (contact : Contact) (now : Time) (linkFails : ChatId → Bool) :
    Option (ManagerState × List Action) :=
  if user.id ∈ s.blocked_users then
    some (s, [.replyBlocked user.id])
  else if contact.user_id ≠ user.id then
    some (s, [.replyMismatch user.id])
  else
    match s.rate_limiter.can_verify user.id now with
    | none => none
    | some (ok, rl1) =>
      let s1 : ManagerState := { s with rate_limiter := rl1 }
      if !ok then
        let blocked := block_user s1 user.id "Too many verification attempts" now
        some ({ blocked.1 with db := (blocked.1.db.log_spam_incident user.id
                 "verification_rate_limit" "Exceeded verification attempts" now) },
              blocked.2 ++ [.replyTooMany user.id])
      else
        match rl1.record_verification user.id now with
        | none => none
        | some rl2 =>
          let s2 : ManagerState := { s1 with rate_limiter := rl2 }
          let pr := verify_phone_number contact.phone_number
          if pr.is_filipino then
            let db1 := s2.db.add_verified_user user.id user.username
              user.first_name contact.phone_number now
            some ({ s2 with db := db1 },
                  [.replyVerified user.id (generate_invite_links db1 linkFails),
                   .notifyAdminVerified user.id])
          else
            some ({ s2 with db := (s2.db.log_spam_incident user.id
                     "invalid_phone" ("Provided: " ++ pr.formatted_number) now) },
                  [.replyInvalidPhone user.id])

/-! ## Entry classifiers for invite results -/

/-- The `except` branch fired for this destination. -/
def InviteEntry.isFailure : InviteEntry → Bool
  | .failure _ => true
  | .success _ => false

/-- A fresh link was issued for this destination. -/
def InviteEntry.isSuccess : InviteEntry → Bool
  | .success _ => true
  | .failure _ => false

/-! ## Concrete inputs used by individual claims -/

/-- C1: a store holding one banned, previously verified user 5. -/
def c1Db : Db := ⟨[(5, ⟨"u", "f", some "+639171234567", 0, true⟩)], [], [], []⟩

/-- C2: a store holding banned user 7. -/
def c2Db : Db := ⟨[(7, ⟨"u", "f", some "+639171234567", 0, true⟩)], [], [], []⟩

def c2Cfg : Config := ⟨99⟩

def c2User : TgUser := ⟨7, false, none, "f"⟩

def c2Req : JoinRequest := ⟨c2User, 1⟩

/-- C2: process state where user 7 is banned in the store but absent from
the in-memory cache. -/
def c2StateStale : ManagerState := ⟨c2Db, RateLimiter.init, []⟩

/-- C2: process state where user 7 is in the in-memory cache. -/
def c2StateBlocked : ManagerState := ⟨c2Db, RateLimiter.init, [7]⟩

/-- C3: a store holding banned user 7, as left behind by a previous
process. -/
def c3Db : Db := ⟨[(7, ⟨"u", "f", some "+639171234567", 0, true⟩)], [], [], []⟩

def c3Cfg : Config := ⟨99⟩

def c3Req : JoinRequest := ⟨⟨7, false, none, "f"⟩, 1⟩

/-- C5: user 77 has already recorded three verification attempts inside
the 24h window and has no `verified_users` row. -/
def c5Rl : RateLimiter := ⟨⟨true, [(77, [0, 0, 0])]⟩, ⟨true, []⟩, ⟨true, []⟩⟩

def c5State : ManagerState := ⟨⟨[], [], [], []⟩, c5Rl, []⟩

def c5User : TgUser := ⟨77, false, none, "x"⟩

def c5Contact : Contact := ⟨77, "09171234567"⟩

/-- C5: the limiter state `can_verify` returns alongside `False`. -/
def c5Rl1 : RateLimiter := ⟨⟨false, [(77, [0, 0, 0])]⟩, ⟨true, []⟩, ⟨true, []⟩⟩

/-- C6: the first user's full limit-3 verification scenario — check, then
three check/record rounds, then a check inside the window and a check
after the window has elapsed; collects every check result. -/
def c6Scenario : Option (List Bool) := do
  let r0 := RateLimiter.init
  let (b1, r1) ← r0.can_verify 1 0
  let r1 ← r1.record_verification 1 0
  let (b2, r2) ← r1.can_verify 1 1
  let r2 ← r2.record_verification 1 1
  let (b3, r3) ← r2.can_verify 1 2
  let r3 ← r3.record_verification 1 2
  let (b4, r4) ← r3.can_verify 1 100
  let (b5, _) ← r4.can_verify 1 86402
  pure [b1, b2, b3, b4, b5]

/-- C7: user 10 is verified with stored phone `"0"`, which no longer
classifies as a Philippine number. -/
def c7Db : Db := ⟨[(10, ⟨"", "", some "0", 0, false⟩)], [], [], []⟩

def c7Cfg : Config := ⟨99⟩

def c7State : ManagerState := ⟨c7Db, RateLimiter.init, []⟩

def c7Req : JoinRequest := ⟨⟨10, false, none, "n"⟩, 1⟩

def c7Rl1 : RateLimiter := ⟨⟨true, []⟩, ⟨false, [(10, [])]⟩, ⟨true, []⟩⟩

def c7Rl2 : RateLimiter := ⟨⟨true, []⟩, ⟨false, [(10, [0])]⟩, ⟨true, []⟩⟩

/-- C8: three active managed destinations. -/
def c8Db : Db :=
  ⟨[], [], [(1, ⟨"a", "group", 0, true⟩), (2, ⟨"b", "group", 0, true⟩),
    (3, ⟨"c", "channel", 0, true⟩)], []⟩

/-- C10: some non-trivial process state. -/
def c10State : ManagerState :=
  ⟨⟨[(7, ⟨"u", "f", some "+639171234567", 0, true⟩)], [], [], []⟩,
   RateLimiter.init, [7]⟩

def c10Req : JoinRequest := ⟨⟨50, true, none, "b"⟩, 9⟩

/-! ## Helper lemmas -/

theorem assocLookup_assocSet_self {α β : Type} [DecidableEq α]
    (l : List (α × β)) (k : α) (v : β) :
    assocLookup (assocSet l k v) k = some v := by
  induction l with
  | nil => simp [assocSet, assocLookup]
  | cons p rest ih =>
    obtain ⟨a, b⟩ := p
    by_cases h : a = k
    · simp [assocSet, assocLookup, h]
    · simp [assocSet, assocLookup, h, ih]

/-- A key-preserving per-row rewrite keeps absent keys absent. -/
theorem assocLookup_map_snd_none {α β γ : Type} [DecidableEq α]
    (l : List (α × β)) (f : α × β → γ) (x : α)
    (h : assocLookup l x = none) :
    assocLookup (l.map (fun p => (p.1, f p))) x = none := by
  induction l with
  | nil => simp [assocLookup]
  | cons p rest ih =>
    obtain ⟨a, b⟩ := p
    have hax : a ≠ x := by
      intro hh
      simp [assocLookup, hh] at h
    have hrest : assocLookup rest x = none := by
      simpa [assocLookup, hax] using h
    simpa [assocLookup, hax] using ih hrest

/-- A key with no row keeps having no row across the `UPDATE`-style
per-row rewrite performed by `Db.ban_user`. -/
theorem assocLookup_banMap_none (l : List (UserId × UserRecord)) (u x : UserId)
    (h : assocLookup l x = none) :
    assocLookup (l.map (fun p =>
      if p.1 = u then (p.1, { p.2 with is_banned := true }) else p)) x
      = none := by
  have hfun : (fun (p : UserId × UserRecord) =>
        if p.1 = u then (p.1, { p.2 with is_banned := true }) else p)
      = (fun p => (p.1, if p.1 = u then { p.2 with is_banned := true } else p.2)) := by
    funext p
    by_cases hp : p.1 = u <;> simp [hp]
  rw [hfun]
  exact assocLookup_map_snd_none l _ x h

theorem length_filter_add_length_filter_not {α : Type} (l : List α)
    (p : α → Bool) :
    (l.filter p).length + (l.filter (fun x => !p x)).length = l.length := by
  induction l with
  | nil => simp
  | cons a rest ih =>
    by_cases h : p a
    · simp [List.filter, h]
      omega
    · simp [List.filter, h]
      omega

theorem invite_failure_count (gs : List (ChatId × String × String))
    (lf : ChatId → Bool) :
    ((gs.map (fun g => if lf g.1 then InviteEntry.failure g.1
        else InviteEntry.success g.1)).filter InviteEntry.isFailure).length
      = (gs.filter (fun g => lf g.1)).length := by
  induction gs with
  | nil => simp
  | cons g rest ih =>
    by_cases h : lf g.1
    · simp [List.filter, h, InviteEntry.isFailure, ih]
    · simp [List.filter, h, InviteEntry.isFailure, ih]

theorem mem_setAdd_self (l : List UserId) (u : UserId) : u ∈ setAdd l u := by
  by_cases h : u ∈ l <;> simp [setAdd, h]

theorem invite_success_count (gs : List (ChatId × String × String))
    (lf : ChatId → Bool) :
    ((gs.map (fun g => if lf g.1 then InviteEntry.failure g.1
        else InviteEntry.success g.1)).filter InviteEntry.isSuccess).length
      = (gs.filter (fun g => !lf g.1)).length := by
  induction gs with
  | nil => simp
  | cons g rest ih =>
    by_cases h : lf g.1
    · simp [List.filter, h, InviteEntry.isSuccess, ih]
    · simp [List.filter, h, InviteEntry.isSuccess, ih]

/-! ## Claim theorems -/

/-- C1, counterexample: the verified-user upsert does NOT leave `banned`
unchanged.  User 5 is banned in `c1Db`; after `add_verified_user` the
stored row has `is_banned = false` — re-verifying a banned user clears the
ban, because the `INSERT OR REPLACE` writes the `is_banned` column as
`FALSE`. -/
theorem c1_counterexample :
    (assocLookup c1Db.verified_users 5).map (fun r => r.is_banned) = some true
    ∧ (assocLookup (c1Db.add_verified_user 5 (some "u") "f" "+639170000000"
        10).verified_users 5).map (fun r => r.is_banned) = some false := by
  decide

/-- C1, amended: for every user and store, the verified-user upsert
(`add_verified_user`) overwrites the user's row with `is_banned = FALSE`,
so after the upsert the user is never banned — in particular a user banned
before the upsert is no longer banned after it. -/
theorem c1_amended_theorem (db : Db) (u : UserId) (username : Option String)
    (first_name phone : String) (now : Time) :
    (assocLookup (db.add_verified_user u username first_name phone
        now).verified_users u).map (fun r => r.is_banned) = some false := by
  simp [Db.add_verified_user, assocLookup_assocSet_self]

/-- C3, code bug: the in-memory banned-user cache is NOT hydrated from the
durable store, and admission follows the cache.  Starting a manager over a
store in which user 7 is banned yields `blocked_users = []`, and user 7's
join request is not declined at the ban gate: the handler sends the
verification prompt. -/
theorem c3_code_bug_theorem :
    (initManager c3Db).blocked_users = []
    ∧ (assocLookup c3Db.verified_users 7).map (fun r => r.is_banned) = some true
    ∧ (handle_join_request c3Cfg (initManager c3Db) c3Req 0 true).2
        = [Action.sendVerificationPrompt 7] := by
  decide

/-- C4, counterexample: `classify("09171234567")` does not produce the
canonical string `"+639171234567"`: the code formats with
`PhoneNumberFormat.INTERNATIONAL`, which groups the digits with spaces. -/
theorem c4_counterexample :
    (verify_phone_number "09171234567").formatted_number ≠ "+639171234567" := by
  decide

/-- C4, amended: the four raw forms `"09171234567"`, `"9171234567"`,
`"639171234567"`, `"+639171234567"` all classify to the identical result
with `is_filipino = true`, and the shared canonical string is the
space-grouped international format `"+63 917 123 4567"` (not the bare
E.164 `"+639171234567"`). -/
theorem c4_amended_theorem :
    verify_phone_number "09171234567" = verify_phone_number "9171234567"
    ∧ verify_phone_number "9171234567" = verify_phone_number "639171234567"
    ∧ verify_phone_number "639171234567" = verify_phone_number "+639171234567"
    ∧ verify_phone_number "09171234567"
        = ⟨true, "+63 917 123 4567", true, some "PH", some 63⟩ := by
  decide

/-- C6, code bug: for the first user the limit-3/24h scenario behaves as
claimed — check true before each of the first 3 records, false on the next
check inside the window, true again once the window has elapsed — but
`_cleanup` rebuilds the `defaultdict` as a plain `dict`, so the very next
check for a second user with empty history raises `KeyError` (`none`)
instead of returning true. -/
theorem c6_code_bug_theorem :
    c6Scenario = some [true, true, true, false, true]
    ∧ ((RateLimiter.init.can_verify 1 0).bind (fun p => p.2.can_verify 2 0))
        = none := by
  decide

/-- C9: any raw input whose cleaned, normalized form the (modelled)
`phonenumbers.parse` rejects yields the fallback result — `is_valid =
false`, `is_filipino = false`, the raw input echoed as the formatted
number, and no exception escapes (`verify_phone_number` is total). -/
theorem c9_theorem (raw : String)
    (h : pnParse (normalizePhone (cleanPhone raw)) = none) :
    verify_phone_number raw = ⟨false, raw, false, none, none⟩ := by
  simp [verify_phone_number, h]

/-- C9, witness at the unparseable input `"hello"`. -/
theorem c9_witness :
    pnParse (normalizePhone (cleanPhone "hello")) = none
    ∧ verify_phone_number "hello" = ⟨false, "hello", false, none, none⟩ :=
  ⟨by decide, c9_theorem "hello" (by decide)⟩

/-- C10: every join request whose requester has `is_bot = true` is
approved immediately, with the state (store, rate limiter, cache)
completely untouched — no ban check, no rate-limit check or record, no
database write. -/
theorem c10_theorem (cfg : Config) (s : ManagerState) (req : JoinRequest)
    (now : Time) (promptDeliverable : Bool)
    (h : req.user.is_bot = true) :
    handle_join_request cfg s req now promptDeliverable
      = (s, [Action.approve req.chatId req.user.id]) := by
  simp [handle_join_request, h]

/-- C10, witness: a bot account (id 50) joining chat 9 over a state with a
banned and cached-blocked user. -/
theorem c10_witness :
    c10Req.user.is_bot = true
    ∧ handle_join_request ⟨99⟩ c10State c10Req 0 true
        = (c10State, [Action.approve 9 50]) :=
  ⟨by decide, c10_theorem ⟨99⟩ c10State c10Req 0 true (by decide)⟩

/-- C2, counterexample: a requester who is banned in the durable registry
(user 7 in `c2Db`) but absent from the in-memory `blocked_users` cache is
NOT rejected: the handler sends the verification prompt and never calls
decline, because the ban gate consults only the cache. -/
theorem c2_counterexample :
    (assocLookup c2Db.verified_users 7).map (fun r => r.is_banned) = some true
    ∧ (handle_join_request c2Cfg c2StateStale c2Req 0 true).2
        = [Action.sendVerificationPrompt 7] := by
  decide

/-- C2, amended: for every join request whose requester is in the
in-memory blocked set (the code's operative ban state), the handler
declines, appends the `join_request_rejected` audit record, and sends no
verification prompt — the action list is exactly the decline call. -/
theorem c2_amended_theorem (cfg : Config) (s : ManagerState)
    (req : JoinRequest) (now : Time) (promptDeliverable : Bool)
    (hb : req.user.is_bot = false) (ha : req.user.id ≠ cfg.adminId)
    (hm : req.user.id ∈ s.blocked_users) :
    handle_join_request cfg s req now promptDeliverable
      = (⟨s.db.log_spam_incident req.user.id "join_request_rejected"
            "Blocked user tried to join" now, s.rate_limiter, s.blocked_users⟩,
         [Action.decline req.chatId req.user.id]) := by
  simp [handle_join_request, hb, ha, hm]

/-- C2, witness: blocked user 7 requesting to join chat 1 is declined with
the audit record and no prompt. -/
theorem c2_amended_witness :
    c2Req.user.is_bot = false
    ∧ c2Req.user.id ≠ c2Cfg.adminId
    ∧ c2Req.user.id ∈ c2StateBlocked.blocked_users
    ∧ handle_join_request c2Cfg c2StateBlocked c2Req 0 true
        = (⟨c2Db.log_spam_incident 7 "join_request_rejected"
              "Blocked user tried to join" 0, RateLimiter.init, [7]⟩,
           [Action.decline 1 7]) :=
  ⟨by decide, by decide, by decide,
    c2_amended_theorem c2Cfg c2StateBlocked c2Req 0 true (by decide)
      (by decide) (by decide)⟩

/-- C5, counterexample: the 4th phone-share attempt within the verify
window does take the escalation path (the sender is added to the in-memory
blocked set, shown `true` below), yet the sender ends up with NO
`verified_users` row at all — there is no record with `banned = true`,
because `ban_user` is an `UPDATE` that matches no row for a never-verified
sender. -/
theorem c5_counterexample :
    c5Rl.can_verify 77 0 = some (false, c5Rl1)
    ∧ ((handle_contact_message c5State c5User c5Contact 0
          (fun _ => false)).map
        (fun r => (r.1.blocked_users.contains 77,
          assocLookup r.1.db.verified_users 77))) = some (true, none) := by
  decide

/-- C5, amended: a phone-share attempt arriving when the verify rate-limit
check is already false results in the sender being added to the in-memory
blocked set and the durable `banned` flag being set only on an existing
registry row (a sender with no row gains no row), two audit records
(`block` and `verification_rate_limit`), and no call to the verified-user
upsert from that attempt (`verified_users` changes only by the ban
`UPDATE`). -/
theorem c5_amended_theorem (s : ManagerState) (user : TgUser)
    (contact : Contact) (now : Time) (lf : ChatId → Bool) (rl1 : RateLimiter)
    (hm : user.id ∉ s.blocked_users) (hc : contact.user_id = user.id)
    (hr : s.rate_limiter.can_verify user.id now = some (false, rl1)) :
    ∃ S', handle_contact_message s user contact now lf
        = some (S', [Action.notifyAdminBlocked user.id,
                     Action.replyTooMany user.id])
      ∧ user.id ∈ S'.blocked_users
      ∧ S'.db.verified_users = (s.db.ban_user user.id).verified_users
      ∧ S'.db.spam_tracking = s.db.spam_tracking
          ++ [⟨user.id, "block", now, "Too many verification attempts"⟩,
              ⟨user.id, "verification_rate_limit", now,
                "Exceeded verification attempts"⟩]
      ∧ (assocLookup s.db.verified_users user.id = none →
          assocLookup S'.db.verified_users user.id = none) := by
  refine ⟨⟨((s.db.ban_user user.id).log_spam_incident user.id "block"
      "Too many verification attempts" now).log_spam_incident user.id
      "verification_rate_limit" "Exceeded verification attempts" now,
      rl1, setAdd s.blocked_users user.id⟩, ?_, ?_, ?_, ?_, ?_⟩
  · simp [handle_contact_message, hm, hc, hr, block_user]
  · exact mem_setAdd_self s.blocked_users user.id
  · simp [Db.log_spam_incident]
  · simp [Db.log_spam_incident, Db.ban_user]
  · intro h
    simpa [Db.log_spam_incident, Db.ban_user] using
      assocLookup_banMap_none s.db.verified_users user.id user.id h

/-- C5, witness: user 77 with three recorded attempts in-window and no
registry row. -/
theorem c5_amended_witness :
    c5User.id ∉ c5State.blocked_users
    ∧ c5Contact.user_id = c5User.id
    ∧ c5State.rate_limiter.can_verify c5User.id 0 = some (false, c5Rl1)
    ∧ (∃ S', handle_contact_message c5State c5User c5Contact 0
          (fun _ => false)
        = some (S', [Action.notifyAdminBlocked 77, Action.replyTooMany 77])
      ∧ (77 : UserId) ∈ S'.blocked_users
      ∧ S'.db.verified_users = (c5State.db.ban_user 77).verified_users
      ∧ S'.db.spam_tracking = c5State.db.spam_tracking
          ++ [⟨77, "block", 0, "Too many verification attempts"⟩,
              ⟨77, "verification_rate_limit", 0,
                "Exceeded verification attempts"⟩]
      ∧ (assocLookup c5State.db.verified_users 77 = none →
          assocLookup S'.db.verified_users 77 = none)) :=
  ⟨by decide, by decide, by decide,
    c5_amended_theorem c5State c5User c5Contact 0 (fun _ => false) c5Rl1
      (by decide) (by decide) (by decide)⟩

/-- C7: a join request from a requester whose stored record says verified
but whose stored phone is falsy or now fails target-region
reclassification — given it passes the trusted-identity, cache-ban and
rate-limit gates (the checks that precede this step) and the prompt is
deliverable — is not rejected: the handler falls through and the outcome
is exactly the verification prompt, with the join request left pending. -/
theorem c7_theorem (cfg : Config) (s : ManagerState) (req : JoinRequest)
    (now : Time) (rl1 rl2 : RateLimiter)
    (hb : req.user.is_bot = false) (ha : req.user.id ≠ cfg.adminId)
    (hm : req.user.id ∉ s.blocked_users)
    (hj : s.rate_limiter.can_join req.user.id now = some (true, rl1))
    (hrec : rl1.record_join req.user.id now = some rl2)
    (hv : s.db.is_verified req.user.id = true)
    (hp : pyTruthy (s.db.get_user_phone req.user.id) = false
        ∨ (verify_phone_number
            ((s.db.get_user_phone req.user.id).getD "")).is_filipino = false) :
    handle_join_request cfg s req now true
      = (⟨s.db.add_join_request req.user.id req.chatId now, rl2,
          s.blocked_users⟩,
         [Action.sendVerificationPrompt req.user.id]) := by
  have e1 : (s.db.add_join_request req.user.id req.chatId now).is_verified
      req.user.id = s.db.is_verified req.user.id := rfl
  have e2 : (s.db.add_join_request req.user.id req.chatId now).get_user_phone
      req.user.id = s.db.get_user_phone req.user.id := rfl
  have hcond : ((s.db.add_join_request req.user.id req.chatId now).is_verified
        req.user.id
      && pyTruthy ((s.db.add_join_request req.user.id
          req.chatId now).get_user_phone req.user.id)
      && (verify_phone_number (((s.db.add_join_request req.user.id
          req.chatId now).get_user_phone req.user.id).getD
            "")).is_filipino) = false := by
    rw [e1, e2, hv]
    rcases hp with hp | hp
    · simp [hp]
    · simp [hp]
  simp [handle_join_request, hb, ha, hm, hj, hrec, hcond]

/-- C7, witness: verified user 10 whose stored phone `"0"` no longer
classifies; the request is routed to the prompt, not declined. -/
theorem c7_witness :
    c7Req.user.is_bot = false
    ∧ c7Req.user.id ≠ c7Cfg.adminId
    ∧ c7Req.user.id ∉ c7State.blocked_users
    ∧ c7State.rate_limiter.can_join 10 0 = some (true, c7Rl1)
    ∧ c7Rl1.record_join 10 0 = some c7Rl2
    ∧ c7State.db.is_verified 10 = true
    ∧ (verify_phone_number
        ((c7State.db.get_user_phone 10).getD "")).is_filipino = false
    ∧ handle_join_request c7Cfg c7State c7Req 0 true
        = (⟨c7Db.add_join_request 10 1 0, c7Rl2, []⟩,
           [Action.sendVerificationPrompt 10]) :=
  ⟨by decide, by decide, by decide, by decide, by decide, by decide,
    by decide,
    c7_theorem c7Cfg c7State c7Req 0 c7Rl1 c7Rl2 (by decide) (by decide)
      (by decide) (by decide) (by decide) (by decide) (Or.inr (by decide))⟩

/-- C8: whenever there are active managed destinations, invite issuance
returns one entry per active destination (here: three destinations give a
three-entry aggregate), and one destination's failure does not abort the
others: with exactly one failing destination the aggregate holds exactly
two success entries and one explicit failure entry. -/
theorem c8_theorem (db : Db) (lf : ChatId → Bool)
    (h3 : db.get_managed_groups.length = 3)
    (h1 : (db.get_managed_groups.filter (fun g => lf g.1)).length = 1) :
    ∃ es, generate_invite_links db lf = InviteLinksResult.entries es
      ∧ es.length = 3
      ∧ (es.filter InviteEntry.isSuccess).length = 2
      ∧ (es.filter InviteEntry.isFailure).length = 1 := by
  have hne : db.get_managed_groups.isEmpty = false := by
    cases hgs : db.get_managed_groups with
    | nil => rw [hgs] at h3; simp at h3
    | cons a t => simp
  refine ⟨db.get_managed_groups.map (fun g => if lf g.1
      then InviteEntry.failure g.1 else InviteEntry.success g.1),
    ?_, ?_, ?_, ?_⟩
  · simp [generate_invite_links, hne]
  · simp [h3]
  · rw [invite_success_count]
    have htot := length_filter_add_length_filter_not db.get_managed_groups
      (fun g => lf g.1)
    omega
  · rw [invite_failure_count, h1]

/-- C8, witness: three active destinations 1, 2, 3 with destination 2
failing. -/
theorem c8_witness :
    c8Db.get_managed_groups.length = 3
    ∧ (c8Db.get_managed_groups.filter (fun g => (g.1 == 2))).length = 1
    ∧ (∃ es, generate_invite_links c8Db (fun c => c == 2)
          = InviteLinksResult.entries es
        ∧ es.length = 3
        ∧ (es.filter InviteEntry.isSuccess).length = 2
        ∧ (es.filter InviteEntry.isFailure).length = 1) :=
  ⟨by decide, by decide,
    c8_theorem c8Db (fun c => c == 2) (by decide) (by decide)⟩

end FilipinoBot
